import Mathlib

/-!
# SimpleInjection

A shallow embedding of `Editor/SimpleInjection.cpp` (namespace `SimpleInjection`):
the two entry points `InjectIntoProcess` and `CaptureProcess`, run against an
arbitrary implementation of the external `NGFX_Injection_*` interface.

The external interface is a deterministic state machine over an arbitrary state
type `σ`; each entry point threads that state through its calls in program order
and produces, besides its return value, the sequence of external calls it made
(with the status each one returned) and the sequence of messages it handed to
`ReportInjectionError`.
-/

namespace SimpleInjection

/-! ## Declarations of `NGFX_Injection.h` used by the source -/

/-- The C enumeration `NGFX_Injection_Result`, as its underlying integer. -/
abbrev NGFX_Injection_Result := Int

/-- The C enumeration `NGFX_Injection_ActivityType`, as its underlying integer. -/
abbrev NGFX_Injection_ActivityType := Int

/-- The two enumerators of `NGFX_Injection.h` that the source names. The header is
not part of the sources, so their values are parameters of the development. -/
structure NGFX_Injection_Enumerators where
  NGFX_INJECTION_RESULT_OK : NGFX_Injection_Result
  NGFX_INJECTION_ACTIVITY_FRAME_DEBUGGER : NGFX_Injection_ActivityType
  deriving DecidableEq

/-- The record `NGFX_Injection_InstallationInfo`. The source never reads a field of
it; its contents are one opaque number. -/
structure NGFX_Injection_InstallationInfo where
  contents : Nat
  deriving DecidableEq

/-- The record `NGFX_Injection_Activity`. The source reads only `type`; the rest of
the record is one opaque number. -/
structure NGFX_Injection_Activity where
  type : NGFX_Injection_ActivityType
  contents : Nat
  deriving DecidableEq

/-- A value-initialised installation record, as `std::vector<T>(n)` creates it. -/
def zeroInstallation : NGFX_Injection_InstallationInfo := ⟨0⟩

/-- A value-initialised activity record, as `std::vector<T>(n)` creates it. -/
def zeroActivity : NGFX_Injection_Activity := ⟨0, 0⟩

/-- What an enumeration call hands back: the advanced state of the external
interface, the status, the value left in `*pCount` (a `uint32_t`; no arithmetic is
done on it), and the records the call stored through the buffer pointer, first
slot first (unused when the pointer is null). -/
structure EnumerateResponse (σ α : Type) where
  world : σ
  result : NGFX_Injection_Result
  count : Nat
  written : List α

/-- What `NGFX_Injection_InjectToProcess` hands back. -/
structure InjectResponse (σ : Type) where
  world : σ
  result : NGFX_Injection_Result

/-- An implementation of the external interface over a state `σ`.
`EnumerateInstallations w n buf` is the call with `*pCount = n` on entry and the
buffer pointer null (`none`) or pointing at the slots `buf`. -/
structure NGFX_Injection (σ : Type) where
  EnumerateInstallations :
    σ → Nat → Option (List NGFX_Injection_InstallationInfo) →
      EnumerateResponse σ NGFX_Injection_InstallationInfo
  EnumerateActivities :
    σ → NGFX_Injection_InstallationInfo → Nat → Option (List NGFX_Injection_Activity) →
      EnumerateResponse σ NGFX_Injection_Activity
  InjectToProcess :
    σ → NGFX_Injection_InstallationInfo → NGFX_Injection_Activity → InjectResponse σ
  ExecuteActivityCommand : σ → σ

/-- The contents of a buffer after a call stored `written` through its pointer: the
slots are overwritten from the first one on, the buffer keeps its size, and slots
the call did not reach keep their old value. -/
def fillBuffer {α : Type} (buffer written : List α) : List α :=
  written.take buffer.length ++ buffer.drop written.length

/-! ## The observable behaviour of a run -/

/-- One external call with its arguments. An activity pointer is recorded as the
position of the slot it points at, together with the record in that slot. -/
inductive Call where
  | EnumerateInstallations (count : Nat)
      (pInstallations : Option (List NGFX_Injection_InstallationInfo))
  | EnumerateActivities (installation : NGFX_Injection_InstallationInfo) (count : Nat)
      (pActivities : Option (List NGFX_Injection_Activity))
  | InjectToProcess (installation : NGFX_Injection_InstallationInfo)
      (slot : Nat) (activity : NGFX_Injection_Activity)
  | ExecuteActivityCommand
  deriving DecidableEq

/-- One external call together with the status it returned to the caller (`none`
for `ExecuteActivityCommand`, from which the caller takes nothing). -/
structure Event where
  call : Call
  result : Option NGFX_Injection_Result
  deriving DecidableEq

/-- The result of running an entry point: its return value, the state the external
interface is left in, the external calls in order, and the messages passed to
`ReportInjectionError` in order. -/
structure Outcome (σ ρ : Type) where
  ret : ρ
  world : σ
  trace : List Event
  reports : List String

/-- Whether a call is one of the two enumeration calls. -/
def Call.isEnumerate : Call → Bool
  | .EnumerateInstallations _ _ => true
  | .EnumerateActivities _ _ _ => true
  | _ => false

/-- Whether a call is an activity enumeration. -/
def Call.isEnumerateActivities : Call → Bool
  | .EnumerateActivities _ _ _ => true
  | _ => false

/-- Whether a call is the injection request. -/
def Call.isInjectToProcess : Call → Bool
  | .InjectToProcess _ _ _ => true
  | _ => false

/-- Whether a call is the execute-activity-command request. -/
def Call.isExecuteActivityCommand : Call → Bool
  | .ExecuteActivityCommand => true
  | _ => false

/-- The function `ReportInjectionError`. Both output statements of its body are
commented out, so it has no effect of its own; what is kept is that it was called
with `pMessage`. -/
def ReportInjectionError (reports : List String) (pMessage : String) : List String :=
  reports ++ [pMessage]

/-- The loop of step 4 over the slots from position `slot` on: the first slot whose
`type` is the frame-debugger enumerator, as position and record, or `none` when
the loop ends with `pActivityToInject` still null. -/
def findActivityToInject (K : NGFX_Injection_Enumerators) :
    List NGFX_Injection_Activity → Nat → Option (Nat × NGFX_Injection_Activity)
  | [], _ => none
  | activity :: rest, slot =>
    if activity.type = K.NGFX_INJECTION_ACTIVITY_FRAME_DEBUGGER then
      some (slot, activity)
    else
      findActivityToInject K rest (slot + 1)

/-- The function `InjectIntoProcess`. Each `r` is the answer of one external call;
`result`, `numInstallations`, `numActivities` and the two vectors are rebound where
the source assigns them or passes them by pointer. -/
def InjectIntoProcess {σ : Type} (K : NGFX_Injection_Enumerators) (api : NGFX_Injection σ)
    (w : σ) : Outcome σ Bool :=
  -- 1) First, find Nsight Graphics installations
  let numInstallations := 0
  let r1 := api.EnumerateInstallations w numInstallations none
  let trace : List Event := [⟨.EnumerateInstallations numInstallations none, some r1.result⟩]
  let result := r1.result
  let numInstallations := r1.count
  if numInstallations = 0 ∨ K.NGFX_INJECTION_RESULT_OK ≠ result then
    ⟨false, r1.world, trace,
      ReportInjectionError []
        ("Could not find any Nsight Graphics installations to inject: "
          ++ toString result ++ "\n"
          ++ "Please install Nsight Graphics to enable programmatic injection.")⟩
  else
  let installations := List.replicate numInstallations zeroInstallation
  let r2 := api.EnumerateInstallations r1.world numInstallations (some installations)
  let trace := trace ++
    [⟨.EnumerateInstallations numInstallations (some installations), some r2.result⟩]
  let result := r2.result
  let numInstallations := r2.count
  let installations := fillBuffer installations r2.written
  if numInstallations = 0 ∨ K.NGFX_INJECTION_RESULT_OK ≠ result then
    ⟨false, r2.world, trace,
      ReportInjectionError []
        ("Could not find any Nsight Graphics installations to inject: "
          ++ toString result ++ "\n"
          ++ "Please install Nsight Graphics to enable programmatic injection.")⟩
  else
  -- 2) We have at least one Nsight Graphics installation, find which
  -- activities are available using the latest installation.
  -- (`installations.back()`; the vector has at least one slot here, so the
  -- default is never taken)
  let installation := installations.getLastD zeroInstallation
  -- 3) Retrieve the count of activities so we can initialize our activity data
  let numActivities := 0
  let r3 := api.EnumerateActivities r2.world installation numActivities none
  let trace := trace ++ [⟨.EnumerateActivities installation numActivities none, some r3.result⟩]
  let result := r3.result
  let numActivities := r3.count
  if numActivities = 0 ∨ K.NGFX_INJECTION_RESULT_OK ≠ result then
    ⟨false, r3.world, trace,
      ReportInjectionError []
        ("Could not find any activities in Nsight Graphics installation: "
          ++ toString result ++ "\n"
          ++ "Please install Nsight Graphics to enable programmatic injection.")⟩
  else
  -- With the count of activities available, query their description
  let activities := List.replicate numActivities zeroActivity
  let r4 := api.EnumerateActivities r3.world installation numActivities (some activities)
  let trace := trace ++
    [⟨.EnumerateActivities installation numActivities (some activities), some r4.result⟩]
  let result := r4.result
  let activities := fillBuffer activities r4.written
  if K.NGFX_INJECTION_RESULT_OK ≠ result then
    ⟨false, r4.world, trace,
      ReportInjectionError []
        ("NGFX_Injection_EnumerateActivities failed with" ++ toString result)⟩
  else
  -- 4) We have valid activities. From here, we choose an activity.
  -- In this sample, we use "Frame Debugger" activity
  match findActivityToInject K activities 0 with
  | none =>
    ⟨false, r4.world, trace,
      ReportInjectionError []
        ("Frame Debugger activity is not available" ++ toString result)⟩
  | some (slot, activity) =>
    -- 5) With the activity identified, Inject into the process
    let r5 := api.InjectToProcess r4.world installation activity
    let trace := trace ++ [⟨.InjectToProcess installation slot activity, some r5.result⟩]
    let result := r5.result
    if K.NGFX_INJECTION_RESULT_OK ≠ result then
      ⟨false, r5.world, trace,
        ReportInjectionError []
          ("NGFX_Injection_InjectToProcess failed with" ++ toString result)⟩
    else
      -- Everything succeeded
      ⟨true, r5.world, trace, []⟩

/-- The function `CaptureProcess`. -/
def CaptureProcess {σ : Type} (api : NGFX_Injection σ) (w : σ) : Outcome σ Unit :=
  ⟨(), api.ExecuteActivityCommand w, [⟨.ExecuteActivityCommand, none⟩], []⟩

/-! ## Vocabulary for the statements -/

/-- Slot `slot` of `activities` holds `activity`, its type is the frame-debugger
enumerator, and no earlier slot has that type. -/
def IsFirstFrameDebugger (K : NGFX_Injection_Enumerators)
    (activities : List NGFX_Injection_Activity) (slot : Nat)
    (activity : NGFX_Injection_Activity) : Prop :=
  activities[slot]? = some activity ∧
    activity.type = K.NGFX_INJECTION_ACTIVITY_FRAME_DEBUGGER ∧
    ∀ (k : Nat) (b : NGFX_Injection_Activity), k < slot → activities[k]? = some b →
      b.type ≠ K.NGFX_INJECTION_ACTIVITY_FRAME_DEBUGGER

/-- The interface `api`, except that an activity enumeration with a non-null buffer
leaves `c` in `*pCount`; everything else it does is unchanged. -/
def withActivityFillCount {σ : Type} (api : NGFX_Injection σ) (c : Nat) : NGFX_Injection σ :=
  { api with
    EnumerateActivities := fun w installation n buffer =>
      match buffer with
      | none => api.EnumerateActivities w installation n none
      | some b =>
        let r := api.EnumerateActivities w installation n (some b)
        ⟨r.world, r.result, c, r.written⟩ }

/-! ## Concrete implementations of the interface, for running the model -/

/-- A scripted implementation: fixed answers for the count phase and the fill phase
of each enumeration and for the injection request. Its state is the number of
calls it has served. -/
structure Script where
  installationsCount : NGFX_Injection_Result × Nat
  installationsFill : NGFX_Injection_Result × Nat × List NGFX_Injection_InstallationInfo
  activitiesCount : NGFX_Injection_Result × Nat
  activitiesFill : NGFX_Injection_Result × Nat × List NGFX_Injection_Activity
  inject : NGFX_Injection_Result

/-- The interface a script implements. -/
def Script.api (s : Script) : NGFX_Injection Nat where
  EnumerateInstallations w _ buffer :=
    match buffer with
    | none => ⟨w + 1, s.installationsCount.1, s.installationsCount.2, []⟩
    | some _ => ⟨w + 1, s.installationsFill.1, s.installationsFill.2.1, s.installationsFill.2.2⟩
  EnumerateActivities w _ _ buffer :=
    match buffer with
    | none => ⟨w + 1, s.activitiesCount.1, s.activitiesCount.2, []⟩
    | some _ => ⟨w + 1, s.activitiesFill.1, s.activitiesFill.2.1, s.activitiesFill.2.2⟩
  InjectToProcess w _ _ := ⟨w + 1, s.inject⟩
  ExecuteActivityCommand w := w + 1

/-- Enumerator values for the concrete runs: OK is 0, frame debugger is 1. -/
def sampleEnumerators : NGFX_Injection_Enumerators := ⟨0, 1⟩

/-- An activity type other than frame debugger under `sampleEnumerators`, standing
for the colour-buffer viewer of the end-to-end scenario. -/
def colorBufferViewer : NGFX_Injection_ActivityType := 5

/-- The end-to-end scenario: one installation, activities
`[colour-buffer viewer, frame debugger]`, injection OK. -/
def endToEnd : Script :=
  { installationsCount := (0, 1)
    installationsFill := (0, 1, [⟨7⟩])
    activitiesCount := (0, 2)
    activitiesFill := (0, 2, [⟨colorBufferViewer, 10⟩, ⟨1, 11⟩])
    inject := 0 }

/-- A run in which the installation-count query answers OK with count zero. -/
def noInstallations : Script :=
  { endToEnd with installationsCount := (0, 0) }

/-- A run in which every enumeration succeeds and the injection request fails. -/
def injectionFails : Script :=
  { endToEnd with inject := -3 }

/-- A run whose activity list has no frame-debugger record. -/
def noFrameDebugger : Script :=
  { endToEnd with activitiesFill := (0, 2, [⟨colorBufferViewer, 10⟩, ⟨3, 11⟩]) }

/-- A run whose activity list has two frame-debugger records after another one. -/
def twoFrameDebuggers : Script :=
  { endToEnd with
    activitiesCount := (0, 3)
    activitiesFill := (0, 3, [⟨colorBufferViewer, 10⟩, ⟨1, 11⟩, ⟨1, 12⟩]) }

/-! ## Lemmas on the helpers -/

/-- A call cannot change the size of the buffer it fills. -/
theorem fillBuffer_length {α : Type} (buffer written : List α) :
    (fillBuffer buffer written).length = buffer.length := by
  unfold fillBuffer
  simp only [List.length_append, List.length_take, List.length_drop]
  omega

/-- The loop ends with a null pointer exactly when no slot is a frame debugger. -/
theorem findActivityToInject_eq_none (K : NGFX_Injection_Enumerators)
    (l : List NGFX_Injection_Activity) (s : Nat) :
    findActivityToInject K l s = none ↔
      ∀ a ∈ l, a.type ≠ K.NGFX_INJECTION_ACTIVITY_FRAME_DEBUGGER := by
  induction l generalizing s with
  | nil => simp [findActivityToInject]
  | cons a rest ih =>
    unfold findActivityToInject
    by_cases h : a.type = K.NGFX_INJECTION_ACTIVITY_FRAME_DEBUGGER
    · simp [h]
    · simp [h, ih]

/-- The loop started at position `s` ends at the first frame-debugger slot. -/
theorem findActivityToInject_eq_some (K : NGFX_Injection_Enumerators)
    (l : List NGFX_Injection_Activity) (s i : Nat) (a : NGFX_Injection_Activity) :
    findActivityToInject K l s = some (i, a) ↔
      ∃ j, i = s + j ∧ IsFirstFrameDebugger K l j a := by
  unfold IsFirstFrameDebugger
  induction l generalizing s with
  | nil => simp [findActivityToInject]
  | cons x rest ih =>
    unfold findActivityToInject
    by_cases h : x.type = K.NGFX_INJECTION_ACTIVITY_FRAME_DEBUGGER
    · simp only [h, if_true, Option.some.injEq, Prod.mk.injEq]
      constructor
      · rintro ⟨rfl, rfl⟩
        exact ⟨0, rfl, by simp, h, fun k b hk => absurd hk (Nat.not_lt_zero k)⟩
      · rintro ⟨j, hi, hj, -, hfirst⟩
        cases j with
        | zero =>
          simp only [List.getElem?_cons_zero, Option.some.injEq] at hj
          exact ⟨hi.symm, hj⟩
        | succ j => exact absurd h (hfirst 0 x (Nat.succ_pos j) (by simp))
    · simp only [h, if_false, ih]
      constructor
      · rintro ⟨j, hi, hj, ha, hfirst⟩
        refine ⟨j + 1, by omega, by simpa using hj, ha, ?_⟩
        intro k b hk hb
        cases k with
        | zero =>
          simp only [List.getElem?_cons_zero, Option.some.injEq] at hb
          exact hb ▸ h
        | succ k => exact hfirst k b (by omega) (by simpa using hb)
      · rintro ⟨j, hi, hj, ha, hfirst⟩
        cases j with
        | zero =>
          simp only [List.getElem?_cons_zero, Option.some.injEq] at hj
          exact absurd (hj ▸ ha) h
        | succ j =>
          refine ⟨j, by omega, by simpa using hj, ha, ?_⟩
          intro k b hk hb
          exact hfirst (k + 1) b (by omega) (by simpa using hb)

/-- The loop as `InjectIntoProcess` runs it, from the first slot. -/
theorem findActivityToInject_zero_eq_some (K : NGFX_Injection_Enumerators)
    (l : List NGFX_Injection_Activity) (i : Nat) (a : NGFX_Injection_Activity) :
    findActivityToInject K l 0 = some (i, a) ↔ IsFirstFrameDebugger K l i a := by
  rw [findActivityToInject_eq_some]
  constructor
  · rintro ⟨j, hi, h⟩
    have e : i = j := by omega
    exact e ▸ h
  · intro h
    exact ⟨i, by omega, h⟩

/-! ## The return value -/

/-- C1: `InjectIntoProcess` returns true exactly when both installation queries
return OK with a non-zero count, the count-phase activity query returns OK with a
non-zero count, the fill-phase activity query returns OK, the scanned buffer has a
record of type frame debugger, and the injection request (made with the first
such record) returns OK; the return value being a boolean, it is false in every
other case. -/
theorem InjectIntoProcess_true_iff {σ : Type} (K : NGFX_Injection_Enumerators)
    (api : NGFX_Injection σ) (w : σ) :
    let r1 := api.EnumerateInstallations w 0 none
    let installations0 := List.replicate r1.count zeroInstallation
    let r2 := api.EnumerateInstallations r1.world r1.count (some installations0)
    let installation := (fillBuffer installations0 r2.written).getLastD zeroInstallation
    let r3 := api.EnumerateActivities r2.world installation 0 none
    let activities0 := List.replicate r3.count zeroActivity
    let r4 := api.EnumerateActivities r3.world installation r3.count (some activities0)
    let activities := fillBuffer activities0 r4.written
    ((InjectIntoProcess K api w).ret = true ↔
      (r1.result = K.NGFX_INJECTION_RESULT_OK ∧ r1.count ≠ 0) ∧
      (r2.result = K.NGFX_INJECTION_RESULT_OK ∧ r2.count ≠ 0) ∧
      (r3.result = K.NGFX_INJECTION_RESULT_OK ∧ r3.count ≠ 0) ∧
      r4.result = K.NGFX_INJECTION_RESULT_OK ∧
      (∃ a ∈ activities, a.type = K.NGFX_INJECTION_ACTIVITY_FRAME_DEBUGGER) ∧
      ∃ (slot : Nat) (activity : NGFX_Injection_Activity),
        IsFirstFrameDebugger K activities slot activity ∧
        (api.InjectToProcess r4.world installation activity).result
          = K.NGFX_INJECTION_RESULT_OK) := by
  simp only [InjectIntoProcess, ← findActivityToInject_zero_eq_some, ne_eq,
    eq_comm (a := K.NGFX_INJECTION_RESULT_OK)]
  generalize api.EnumerateInstallations w 0 none = r1
  generalize api.EnumerateInstallations r1.world r1.count _ = r2
  generalize (fillBuffer _ r2.written).getLastD zeroInstallation = installation
  generalize api.EnumerateActivities r2.world installation 0 none = r3
  generalize api.EnumerateActivities r3.world installation r3.count _ = r4
  generalize fillBuffer _ r4.written = activities
  by_cases c1 : r1.count = 0 ∨ ¬r1.result = K.NGFX_INJECTION_RESULT_OK
  · rw [if_pos c1]; tauto
  rw [if_neg c1]
  by_cases c2 : r2.count = 0 ∨ ¬r2.result = K.NGFX_INJECTION_RESULT_OK
  · rw [if_pos c2]; tauto
  rw [if_neg c2]
  by_cases c3 : r3.count = 0 ∨ ¬r3.result = K.NGFX_INJECTION_RESULT_OK
  · rw [if_pos c3]; tauto
  rw [if_neg c3]
  by_cases c4 : ¬r4.result = K.NGFX_INJECTION_RESULT_OK
  · rw [if_pos c4]; tauto
  rw [if_neg c4]
  simp only [not_or, not_not] at c1 c2 c3 c4
  cases hf : findActivityToInject K activities 0 with
  | none => simp
  | some p =>
    obtain ⟨slot, activity⟩ := p
    have hmem : ∃ a ∈ activities, a.type = K.NGFX_INJECTION_ACTIVITY_FRAME_DEBUGGER := by
      by_contra hno
      have : findActivityToInject K activities 0 = none :=
        (findActivityToInject_eq_none K activities 0).2
          (fun a ha hfd => hno ⟨a, ha, hfd⟩)
      rw [this] at hf
      exact Option.noConfusion hf
    simp only [Option.some.injEq, Prod.mk.injEq]
    by_cases c5 : ¬(api.InjectToProcess r4.world installation activity).result
        = K.NGFX_INJECTION_RESULT_OK
    · rw [if_pos c5]
      simp only [Bool.false_eq_true, false_iff]
      rintro ⟨-, -, -, -, -, s, a, ⟨rfl, rfl⟩, h⟩
      exact c5 h
    · rw [if_neg c5]
      simp only [not_not] at c5
      simp only [true_iff]
      exact ⟨⟨c1.2, c1.1⟩, ⟨c2.2, c2.1⟩, ⟨c3.2, c3.1⟩, c4, hmem, slot, activity,
        ⟨rfl, rfl⟩, c5⟩

/-! ## Abort paths -/

/-- C2: when the installation-count query leaves zero in the count,
`InjectIntoProcess` returns false and that query is the only external call of the
run: no activity enumeration and no injection request is made. -/
theorem InjectIntoProcess_zero_installations {σ : Type} (K : NGFX_Injection_Enumerators)
    (api : NGFX_Injection σ) (w : σ)
    (h : (api.EnumerateInstallations w 0 none).count = 0) :
    (InjectIntoProcess K api w).ret = false ∧
    (InjectIntoProcess K api w).trace =
      [⟨.EnumerateInstallations 0 none, some (api.EnumerateInstallations w 0 none).result⟩] ∧
    (InjectIntoProcess K api w).world = (api.EnumerateInstallations w 0 none).world ∧
    ∀ e ∈ (InjectIntoProcess K api w).trace,
      e.call.isEnumerateActivities = false ∧ e.call.isInjectToProcess = false := by
  simp [InjectIntoProcess, h, Call.isEnumerateActivities, Call.isInjectToProcess]

/-- Witness of C2: the script whose installation-count query reports zero. -/
theorem InjectIntoProcess_zero_installations_witness :
    (noInstallations.api.EnumerateInstallations 0 0 none).count = 0 ∧
    (InjectIntoProcess sampleEnumerators noInstallations.api 0).ret = false ∧
    (InjectIntoProcess sampleEnumerators noInstallations.api 0).trace =
      [⟨.EnumerateInstallations 0 none, some 0⟩] ∧
    (InjectIntoProcess sampleEnumerators noInstallations.api 0).world = 1 :=
  ⟨by decide,
    (InjectIntoProcess_zero_installations sampleEnumerators noInstallations.api 0
      (by decide)).1,
    (InjectIntoProcess_zero_installations sampleEnumerators noInstallations.api 0
      (by decide)).2.1,
    (InjectIntoProcess_zero_installations sampleEnumerators noInstallations.api 0
      (by decide)).2.2.1⟩

/-- C3: whenever an external call of a run of `InjectIntoProcess` returned a status
other than OK, the run returns false and that call is the last external call of
the run. -/
theorem InjectIntoProcess_non_ok_aborts {σ : Type} (K : NGFX_Injection_Enumerators)
    (api : NGFX_Injection σ) (w : σ) (i : Nat) (e : Event)
    (he : (InjectIntoProcess K api w).trace[i]? = some e)
    (hne : e.result ≠ some K.NGFX_INJECTION_RESULT_OK) :
    (InjectIntoProcess K api w).ret = false ∧
    (InjectIntoProcess K api w).trace.length = i + 1 := by
  revert he
  simp only [InjectIntoProcess, ne_eq, eq_comm (a := K.NGFX_INJECTION_RESULT_OK)]
  generalize api.EnumerateInstallations w 0 none = r1
  generalize api.EnumerateInstallations r1.world r1.count _ = r2
  generalize (fillBuffer _ r2.written).getLastD zeroInstallation = installation
  generalize api.EnumerateActivities r2.world installation 0 none = r3
  generalize api.EnumerateActivities r3.world installation r3.count _ = r4
  generalize fillBuffer _ r4.written = activities
  by_cases c1 : r1.count = 0 ∨ ¬r1.result = K.NGFX_INJECTION_RESULT_OK
  · rw [if_pos c1]
    rcases i with _ | i <;> simp
  rw [if_neg c1]
  simp only [not_or, not_not] at c1
  by_cases c2 : r2.count = 0 ∨ ¬r2.result = K.NGFX_INJECTION_RESULT_OK
  · rw [if_pos c2]
    rcases i with _ | _ | i <;> simp
    rintro rfl
    exact hne (by simp [c1.2])
  rw [if_neg c2]
  simp only [not_or, not_not] at c2
  by_cases c3 : r3.count = 0 ∨ ¬r3.result = K.NGFX_INJECTION_RESULT_OK
  · rw [if_pos c3]
    rcases i with _ | _ | _ | i <;> simp <;> rintro rfl
    · exact hne (by simp [c1.2])
    · exact hne (by simp [c2.2])
  rw [if_neg c3]
  simp only [not_or, not_not] at c3
  by_cases c4 : ¬r4.result = K.NGFX_INJECTION_RESULT_OK
  · rw [if_pos c4]
    rcases i with _ | _ | _ | _ | i <;> simp <;> rintro rfl
    · exact hne (by simp [c1.2])
    · exact hne (by simp [c2.2])
    · exact hne (by simp [c3.2])
  rw [if_neg c4]
  simp only [not_not] at c4
  cases hf : findActivityToInject K activities 0 with
  | none =>
    simp only []
    rcases i with _ | _ | _ | _ | i <;> simp <;> rintro rfl
    · exact hne (by simp [c1.2])
    · exact hne (by simp [c2.2])
    · exact hne (by simp [c3.2])
  | some p =>
    obtain ⟨slot, activity⟩ := p
    simp only []
    by_cases c5 : ¬(api.InjectToProcess r4.world installation activity).result
        = K.NGFX_INJECTION_RESULT_OK
    · rw [if_pos c5]
      rcases i with _ | _ | _ | _ | _ | i <;> simp <;> rintro rfl
      · exact hne (by simp [c1.2])
      · exact hne (by simp [c2.2])
      · exact hne (by simp [c3.2])
      · exact hne (by simp [c4])
    · rw [if_neg c5]
      simp only [not_not] at c5
      rcases i with _ | _ | _ | _ | _ | i <;> simp <;> rintro rfl
      · exact hne (by simp [c1.2])
      · exact hne (by simp [c2.2])
      · exact hne (by simp [c3.2])
      · exact hne (by simp [c4])
      · exact hne (by simp [c5])

/-- Witness of C3: every enumeration succeeds and the injection request, the fifth
call, returns the status -3. -/
theorem InjectIntoProcess_non_ok_aborts_witness :
    (InjectIntoProcess sampleEnumerators injectionFails.api 0).trace[4]? =
      some ⟨.InjectToProcess ⟨7⟩ 1 ⟨1, 11⟩, some (-3)⟩ ∧
    (some (-3) : Option NGFX_Injection_Result)
      ≠ some sampleEnumerators.NGFX_INJECTION_RESULT_OK ∧
    (InjectIntoProcess sampleEnumerators injectionFails.api 0).ret = false ∧
    (InjectIntoProcess sampleEnumerators injectionFails.api 0).trace.length = 4 + 1 :=
  ⟨by decide, by decide,
    InjectIntoProcess_non_ok_aborts sampleEnumerators injectionFails.api 0 4
      ⟨.InjectToProcess ⟨7⟩ 1 ⟨1, 11⟩, some (-3)⟩ (by decide) (by decide)⟩

/-! ## Selection of the installation and of the activity -/

/-- C5: when no record of the activity list (the buffer `activities` as the
fill-phase activity query leaves it) has type frame debugger, `InjectIntoProcess`
returns false and no call of the run is the injection request. -/
theorem InjectIntoProcess_no_frame_debugger {σ : Type} (K : NGFX_Injection_Enumerators)
    (api : NGFX_Injection σ) (w : σ) :
    let r1 := api.EnumerateInstallations w 0 none
    let installations0 := List.replicate r1.count zeroInstallation
    let r2 := api.EnumerateInstallations r1.world r1.count (some installations0)
    let installation := (fillBuffer installations0 r2.written).getLastD zeroInstallation
    let r3 := api.EnumerateActivities r2.world installation 0 none
    let activities0 := List.replicate r3.count zeroActivity
    let r4 := api.EnumerateActivities r3.world installation r3.count (some activities0)
    let activities := fillBuffer activities0 r4.written
    (∀ a ∈ activities, a.type ≠ K.NGFX_INJECTION_ACTIVITY_FRAME_DEBUGGER) →
      (InjectIntoProcess K api w).ret = false ∧
      ∀ e ∈ (InjectIntoProcess K api w).trace, e.call.isInjectToProcess = false := by
  simp only [InjectIntoProcess, ← findActivityToInject_eq_none K _ 0, ne_eq,
    eq_comm (a := K.NGFX_INJECTION_RESULT_OK)]
  generalize api.EnumerateInstallations w 0 none = r1
  generalize api.EnumerateInstallations r1.world r1.count _ = r2
  generalize (fillBuffer _ r2.written).getLastD zeroInstallation = installation
  generalize api.EnumerateActivities r2.world installation 0 none = r3
  generalize api.EnumerateActivities r3.world installation r3.count _ = r4
  generalize fillBuffer _ r4.written = activities
  intro hnone
  rw [hnone]
  split_ifs <;> simp [Call.isInjectToProcess]

/-- Witness of C5: the script whose activity list has no frame-debugger record. -/
theorem InjectIntoProcess_no_frame_debugger_witness :
    (∀ a ∈ fillBuffer (List.replicate 2 zeroActivity) [⟨colorBufferViewer, 10⟩, ⟨3, 11⟩],
      a.type ≠ sampleEnumerators.NGFX_INJECTION_ACTIVITY_FRAME_DEBUGGER) ∧
    (InjectIntoProcess sampleEnumerators noFrameDebugger.api 0).ret = false ∧
    ∀ e ∈ (InjectIntoProcess sampleEnumerators noFrameDebugger.api 0).trace,
      e.call.isInjectToProcess = false :=
  ⟨by decide,
    InjectIntoProcess_no_frame_debugger sampleEnumerators noFrameDebugger.api 0 (by decide)⟩

/-- C6: when all four enumeration calls succeed and the activity list (the buffer
`activities` as the fill-phase activity query leaves it) has a record of type frame
debugger, the run makes exactly one injection request, as its last call, and makes
it with the selected installation and with the first slot of the list whose type is
frame debugger. -/
theorem InjectIntoProcess_injects_first_frame_debugger {σ : Type} (K : NGFX_Injection_Enumerators)
    (api : NGFX_Injection σ) (w : σ) :
    let r1 := api.EnumerateInstallations w 0 none
    let installations0 := List.replicate r1.count zeroInstallation
    let r2 := api.EnumerateInstallations r1.world r1.count (some installations0)
    let installation := (fillBuffer installations0 r2.written).getLastD zeroInstallation
    let r3 := api.EnumerateActivities r2.world installation 0 none
    let activities0 := List.replicate r3.count zeroActivity
    let r4 := api.EnumerateActivities r3.world installation r3.count (some activities0)
    let activities := fillBuffer activities0 r4.written
    (r1.result = K.NGFX_INJECTION_RESULT_OK ∧ r1.count ≠ 0) →
    (r2.result = K.NGFX_INJECTION_RESULT_OK ∧ r2.count ≠ 0) →
    (r3.result = K.NGFX_INJECTION_RESULT_OK ∧ r3.count ≠ 0) →
    r4.result = K.NGFX_INJECTION_RESULT_OK →
    (∃ a ∈ activities, a.type = K.NGFX_INJECTION_ACTIVITY_FRAME_DEBUGGER) →
      ∃ (slot : Nat) (activity : NGFX_Injection_Activity),
        IsFirstFrameDebugger K activities slot activity ∧
        (InjectIntoProcess K api w).trace.filter (fun e => e.call.isInjectToProcess) =
          [⟨.InjectToProcess installation slot activity,
            some (api.InjectToProcess r4.world installation activity).result⟩] ∧
        (InjectIntoProcess K api w).trace.getLast? =
          some ⟨.InjectToProcess installation slot activity,
            some (api.InjectToProcess r4.world installation activity).result⟩ ∧
        (InjectIntoProcess K api w).world =
          (api.InjectToProcess r4.world installation activity).world := by
  simp only [InjectIntoProcess, ← findActivityToInject_zero_eq_some, ne_eq,
    eq_comm (a := K.NGFX_INJECTION_RESULT_OK)]
  generalize api.EnumerateInstallations w 0 none = r1
  generalize api.EnumerateInstallations r1.world r1.count _ = r2
  generalize (fillBuffer _ r2.written).getLastD zeroInstallation = installation
  generalize api.EnumerateActivities r2.world installation 0 none = r3
  generalize api.EnumerateActivities r3.world installation r3.count _ = r4
  generalize fillBuffer _ r4.written = activities
  rintro ⟨h1, n1⟩ ⟨h2, n2⟩ ⟨h3, n3⟩ h4 ⟨a, ha, hfd⟩
  rw [if_neg (by tauto), if_neg (by tauto), if_neg (by tauto), if_neg (by tauto)]
  cases hf : findActivityToInject K activities 0 with
  | none => exact absurd hfd ((findActivityToInject_eq_none K activities 0).1 hf a ha)
  | some p =>
    obtain ⟨slot, activity⟩ := p
    refine ⟨slot, activity, rfl, ?_⟩
    simp only []
    split_ifs <;> simp [Call.isInjectToProcess]

/-- Witness of C6: of the records `viewer, debugger 11, debugger 12` the one in
slot 1 is injected. -/
theorem InjectIntoProcess_injects_first_frame_debugger_witness :
    ((twoFrameDebuggers.api.EnumerateInstallations 0 0 none).result = 0 ∧
      (twoFrameDebuggers.api.EnumerateInstallations 0 0 none).count ≠ 0) ∧
    ((twoFrameDebuggers.api.EnumerateInstallations 1 1 (some [zeroInstallation])).result = 0 ∧
      (twoFrameDebuggers.api.EnumerateInstallations 1 1 (some [zeroInstallation])).count ≠ 0) ∧
    ((twoFrameDebuggers.api.EnumerateActivities 2 ⟨7⟩ 0 none).result = 0 ∧
      (twoFrameDebuggers.api.EnumerateActivities 2 ⟨7⟩ 0 none).count ≠ 0) ∧
    (twoFrameDebuggers.api.EnumerateActivities 3 ⟨7⟩ 3
      (some (List.replicate 3 zeroActivity))).result = 0 ∧
    (∃ a ∈ ([⟨colorBufferViewer, 10⟩, ⟨1, 11⟩, ⟨1, 12⟩] : List NGFX_Injection_Activity),
      a.type = 1) ∧
    ∃ (slot : Nat) (activity : NGFX_Injection_Activity),
      IsFirstFrameDebugger sampleEnumerators
        [⟨colorBufferViewer, 10⟩, ⟨1, 11⟩, ⟨1, 12⟩] slot activity ∧
      (InjectIntoProcess sampleEnumerators twoFrameDebuggers.api 0).trace.filter
          (fun e => e.call.isInjectToProcess) =
        [⟨.InjectToProcess ⟨7⟩ slot activity, some 0⟩] :=
  ⟨by decide, by decide, by decide, by decide, by decide,
    match InjectIntoProcess_injects_first_frame_debugger sampleEnumerators
      twoFrameDebuggers.api 0 (by decide) (by decide) (by decide) (by decide)
      (by decide) with
    | ⟨slot, activity, hfirst, hfilter, _, _⟩ => ⟨slot, activity, hfirst, hfilter⟩⟩

/-! ## End to end -/

/-- C7: end-to-end success. When the installation queries report count 1 and store
one installation, the activity queries (for that installation) report count 2 and
store a record of a type other than frame debugger (the colour-buffer viewer)
followed by a frame-debugger record, and the injection request for that
installation and that second record returns OK, then `InjectIntoProcess` returns
true without reporting anything, and its fifth and last call is the one injection
request, made with that installation and the frame-debugger record in the second
slot. All statuses are OK. -/
theorem InjectIntoProcess_end_to_end {σ : Type} (K : NGFX_Injection_Enumerators)
    (api : NGFX_Injection σ) (w : σ) (only : NGFX_Injection_InstallationInfo)
    (viewer debugger : NGFX_Injection_Activity) :
    let r1 := api.EnumerateInstallations w 0 none
    let r2 := api.EnumerateInstallations r1.world 1 (some [zeroInstallation])
    let r3 := api.EnumerateActivities r2.world only 0 none
    let r4 := api.EnumerateActivities r3.world only 2 (some [zeroActivity, zeroActivity])
    let r5 := api.InjectToProcess r4.world only debugger
    viewer.type ≠ K.NGFX_INJECTION_ACTIVITY_FRAME_DEBUGGER →
    debugger.type = K.NGFX_INJECTION_ACTIVITY_FRAME_DEBUGGER →
    (r1.result = K.NGFX_INJECTION_RESULT_OK ∧ r1.count = 1) →
    (r2.result = K.NGFX_INJECTION_RESULT_OK ∧ r2.count = 1 ∧ r2.written = [only]) →
    (r3.result = K.NGFX_INJECTION_RESULT_OK ∧ r3.count = 2) →
    (r4.result = K.NGFX_INJECTION_RESULT_OK ∧ r4.written = [viewer, debugger]) →
    r5.result = K.NGFX_INJECTION_RESULT_OK →
      (InjectIntoProcess K api w).ret = true ∧
      (InjectIntoProcess K api w).reports = [] ∧
      (InjectIntoProcess K api w).world = r5.world ∧
      (InjectIntoProcess K api w).trace =
        [⟨.EnumerateInstallations 0 none, some K.NGFX_INJECTION_RESULT_OK⟩,
         ⟨.EnumerateInstallations 1 (some [zeroInstallation]),
           some K.NGFX_INJECTION_RESULT_OK⟩,
         ⟨.EnumerateActivities only 0 none, some K.NGFX_INJECTION_RESULT_OK⟩,
         ⟨.EnumerateActivities only 2 (some [zeroActivity, zeroActivity]),
           some K.NGFX_INJECTION_RESULT_OK⟩,
         ⟨.InjectToProcess only 1 debugger, some K.NGFX_INJECTION_RESULT_OK⟩] := by
  intro r1 r2 r3 r4 r5 hv hd ⟨h1, n1⟩ ⟨h2, n2, l2⟩ ⟨h3, n3⟩ ⟨h4, l4⟩ h5
  have e1 : api.EnumerateInstallations w 0 none = r1 := rfl
  have g1 : List.replicate 1 zeroInstallation = [zeroInstallation] := rfl
  have g2 : List.replicate 2 zeroActivity = [zeroActivity, zeroActivity] := rfl
  unfold InjectIntoProcess
  simp only [e1, n1, g1]
  have e2 : api.EnumerateInstallations r1.world 1 (some [zeroInstallation]) = r2 := rfl
  simp only [e2, l2, n2]
  have s2 : (fillBuffer [zeroInstallation] [only]).getLastD zeroInstallation = only := rfl
  simp only [s2]
  have e3 : api.EnumerateActivities r2.world only 0 none = r3 := rfl
  simp only [e3, n3, g2]
  have e4 : api.EnumerateActivities r3.world only 2 (some [zeroActivity, zeroActivity])
      = r4 := rfl
  simp only [e4, l4]
  have s4 : findActivityToInject K (fillBuffer [zeroActivity, zeroActivity]
      [viewer, debugger]) 0 = some (1, debugger) := by
    simp [fillBuffer, findActivityToInject, hv, hd]
  simp only [s4]
  have e5 : api.InjectToProcess r4.world only debugger = r5 := rfl
  simp only [e5]
  simp [h1, h2, h3, h4, h5]

/-- Witness of C7: the scripted end-to-end scenario. -/
theorem InjectIntoProcess_end_to_end_witness :
    colorBufferViewer ≠ sampleEnumerators.NGFX_INJECTION_ACTIVITY_FRAME_DEBUGGER ∧
    (InjectIntoProcess sampleEnumerators endToEnd.api 0).ret = true ∧
    (InjectIntoProcess sampleEnumerators endToEnd.api 0).reports = [] ∧
    (InjectIntoProcess sampleEnumerators endToEnd.api 0).world = 5 ∧
    (InjectIntoProcess sampleEnumerators endToEnd.api 0).trace =
      [⟨.EnumerateInstallations 0 none, some 0⟩,
       ⟨.EnumerateInstallations 1 (some [zeroInstallation]), some 0⟩,
       ⟨.EnumerateActivities ⟨7⟩ 0 none, some 0⟩,
       ⟨.EnumerateActivities ⟨7⟩ 2 (some [zeroActivity, zeroActivity]), some 0⟩,
       ⟨.InjectToProcess ⟨7⟩ 1 ⟨1, 11⟩, some 0⟩] :=
  ⟨by decide,
    InjectIntoProcess_end_to_end sampleEnumerators endToEnd.api 0 ⟨7⟩
      ⟨colorBufferViewer, 10⟩ ⟨1, 11⟩ (by decide) (by decide) (by decide) (by decide)
      (by decide) (by decide) (by decide)⟩

/-! ## Capture -/

/-- C8: from any state of the external interface, in particular the state a run of
`InjectIntoProcess` leaves, successful or not, `CaptureProcess` makes exactly one
external call, the execute-activity-command request, and hence no enumeration and
no injection request. -/
theorem CaptureProcess_single_call {σ : Type} (K : NGFX_Injection_Enumerators)
    (api : NGFX_Injection σ) (w : σ) :
    (CaptureProcess api w).trace = [⟨.ExecuteActivityCommand, none⟩] ∧
    ((CaptureProcess api w).trace.filter
      (fun e => e.call.isExecuteActivityCommand)).length = 1 ∧
    (CaptureProcess api w).trace.filter
      (fun e => e.call.isEnumerate || e.call.isInjectToProcess) = [] ∧
    (CaptureProcess api w).world = api.ExecuteActivityCommand w ∧
    (CaptureProcess api (InjectIntoProcess K api w).world).trace =
      [⟨.ExecuteActivityCommand, none⟩] := by
  simp [CaptureProcess, Call.isExecuteActivityCommand, Call.isEnumerate,
    Call.isInjectToProcess]

/-! ## Reporting -/

/-- C9: a run of `InjectIntoProcess` that returns false has passed exactly one
message to `ReportInjectionError`, and a run that returns true has passed none. -/
theorem InjectIntoProcess_reports {σ : Type} (K : NGFX_Injection_Enumerators)
    (api : NGFX_Injection σ) (w : σ) :
    ((InjectIntoProcess K api w).ret = false →
      (InjectIntoProcess K api w).reports.length = 1) ∧
    ((InjectIntoProcess K api w).ret = true →
      (InjectIntoProcess K api w).reports = []) := by
  simp only [InjectIntoProcess, ReportInjectionError]
  split_ifs
  · simp
  · simp
  · simp
  · simp
  · split
    · simp
    · split_ifs <;> simp

/-- Witness of C9: a failing run with its one report and a successful run with none. -/
theorem InjectIntoProcess_reports_witness :
    (InjectIntoProcess sampleEnumerators injectionFails.api 0).ret = false ∧
    (InjectIntoProcess sampleEnumerators injectionFails.api 0).reports.length = 1 ∧
    (InjectIntoProcess sampleEnumerators endToEnd.api 0).ret = true ∧
    (InjectIntoProcess sampleEnumerators endToEnd.api 0).reports = [] :=
  ⟨by decide,
    (InjectIntoProcess_reports sampleEnumerators injectionFails.api 0).1 (by decide),
    by decide,
    (InjectIntoProcess_reports sampleEnumerators endToEnd.api 0).2 (by decide)⟩

/-! ## The fill-phase activity count -/

/-- C10: the count the fill-phase activity query leaves in `*pCount` is ignored:
replacing it by any `c` (zero included) changes nothing in the run. When the run
reaches that query and it returns OK, the buffer that is scanned has exactly as
many records as the count-phase activity query reported, and the run returns true
exactly when that buffer has a frame-debugger record and the injection request
made with the first such record returns OK. -/
theorem InjectIntoProcess_ignores_activity_fill_count {σ : Type}
    (K : NGFX_Injection_Enumerators) (api : NGFX_Injection σ) (w : σ) (c : Nat) :
    let r1 := api.EnumerateInstallations w 0 none
    let installations0 := List.replicate r1.count zeroInstallation
    let r2 := api.EnumerateInstallations r1.world r1.count (some installations0)
    let installation := (fillBuffer installations0 r2.written).getLastD zeroInstallation
    let r3 := api.EnumerateActivities r2.world installation 0 none
    let activities0 := List.replicate r3.count zeroActivity
    let r4 := api.EnumerateActivities r3.world installation r3.count (some activities0)
    let activities := fillBuffer activities0 r4.written
    InjectIntoProcess K (withActivityFillCount api c) w = InjectIntoProcess K api w ∧
    ((r1.result = K.NGFX_INJECTION_RESULT_OK ∧ r1.count ≠ 0) →
     (r2.result = K.NGFX_INJECTION_RESULT_OK ∧ r2.count ≠ 0) →
     (r3.result = K.NGFX_INJECTION_RESULT_OK ∧ r3.count ≠ 0) →
     r4.result = K.NGFX_INJECTION_RESULT_OK →
       activities.length = r3.count ∧
       ((InjectIntoProcess K api w).ret = true ↔
         ∃ (slot : Nat) (activity : NGFX_Injection_Activity),
           IsFirstFrameDebugger K activities slot activity ∧
           (api.InjectToProcess r4.world installation activity).result
             = K.NGFX_INJECTION_RESULT_OK)) := by
  refine ⟨rfl, ?_⟩
  simp only [fillBuffer_length, List.length_replicate, true_and]
  simp only [InjectIntoProcess, ← findActivityToInject_zero_eq_some, ne_eq,
    eq_comm (a := K.NGFX_INJECTION_RESULT_OK)]
  generalize api.EnumerateInstallations w 0 none = r1
  generalize api.EnumerateInstallations r1.world r1.count _ = r2
  generalize (fillBuffer _ r2.written).getLastD zeroInstallation = installation
  generalize api.EnumerateActivities r2.world installation 0 none = r3
  generalize api.EnumerateActivities r3.world installation r3.count _ = r4
  generalize fillBuffer _ r4.written = activities
  rintro ⟨h1, n1⟩ ⟨h2, n2⟩ ⟨h3, n3⟩ h4
  rw [if_neg (by tauto), if_neg (by tauto), if_neg (by tauto), if_neg (by tauto)]
  cases hf : findActivityToInject K activities 0 with
  | none => simp
  | some p =>
    obtain ⟨slot, activity⟩ := p
    simp only [Option.some.injEq, Prod.mk.injEq]
    by_cases c5 : ¬(api.InjectToProcess r4.world installation activity).result
        = K.NGFX_INJECTION_RESULT_OK
    · rw [if_pos c5]
      simp only [Bool.false_eq_true, false_iff]
      rintro ⟨s, a, ⟨rfl, rfl⟩, h⟩
      exact c5 h
    · rw [if_neg c5]
      simp only [not_not] at c5
      simp only [true_iff]
      exact ⟨slot, activity, ⟨rfl, rfl⟩, c5⟩

/-- Witness of C10: the end-to-end script with its fill-phase activity count replaced
by zero still returns true, scanning a buffer of two records. -/
theorem InjectIntoProcess_ignores_activity_fill_count_witness :
    ((withActivityFillCount endToEnd.api 0).EnumerateActivities 3 ⟨7⟩ 2
      (some [zeroActivity, zeroActivity])).count = 0 ∧
    (InjectIntoProcess sampleEnumerators (withActivityFillCount endToEnd.api 0) 0).ret
      = true ∧
    ((endToEnd.api.EnumerateInstallations 0 0 none).result = 0 ∧
      (endToEnd.api.EnumerateInstallations 0 0 none).count ≠ 0) ∧
    ((endToEnd.api.EnumerateInstallations 1 1 (some [zeroInstallation])).result = 0 ∧
      (endToEnd.api.EnumerateInstallations 1 1 (some [zeroInstallation])).count ≠ 0) ∧
    ((endToEnd.api.EnumerateActivities 2 ⟨7⟩ 0 none).result = 0 ∧
      (endToEnd.api.EnumerateActivities 2 ⟨7⟩ 0 none).count ≠ 0) ∧
    (endToEnd.api.EnumerateActivities 3 ⟨7⟩ 2 (some [zeroActivity, zeroActivity])).result
      = 0 ∧
    (fillBuffer [zeroActivity, zeroActivity]
      [⟨colorBufferViewer, 10⟩, (⟨1, 11⟩ : NGFX_Injection_Activity)]).length = 2 :=
  ⟨by decide,
    (InjectIntoProcess_ignores_activity_fill_count sampleEnumerators endToEnd.api 0 0).1
      ▸ (by decide),
    by decide, by decide, by decide, by decide,
    ((InjectIntoProcess_ignores_activity_fill_count sampleEnumerators endToEnd.api 0 0).2
      (by decide) (by decide) (by decide) (by decide)).1⟩

end SimpleInjection
